import Mathlib

/-! movieList: the view/request model of `src/App.jsx`

A shallow embedding of the React components of `src/App.jsx`:

* `MovieList` (lines 294-452): the `useState` cells become the fields of
  `MovieListState`, the click handlers become `MovieList.handle`, and the
  `useEffect` of lines 311-350 becomes `MovieList.runEffect` (issuing a
  request) together with `MovieList.respond` (a request settling later).
* `App` (lines 454-535): `handleSearch` and the view selection.
* `MovieDetails` (lines 126-157): `fetchMovieDetails`.

JavaScript values that can be `undefined` are `Option`s (`none` is
`undefined`), a thrown exception is `Except.error`.
-/

namespace MovieListApp

/-! ## Data -/

/-- A movie summary as delivered in `data.results`; only the fields read by
`MovieCard` (lines 26-61) are kept. -/
structure Movie where
  id : Int
  title : String
  poster_path : Option String
  deriving DecidableEq, Repr

/-- The values `view` takes: `'trending'` (the `useState` default, line 295)
and `'discover'`. -/
inductive View where
  | trending
  | discover
  deriving DecidableEq, Repr

/-- The values `timeWindow` takes: `'day'` (default, line 296) and `'week'`. -/
inductive TimeWindow where
  | day
  | week
  deriving DecidableEq, Repr

/-- The values `sortBy` takes: `'popularity.desc'` (default, line 300),
`'release_date.desc'` and `'vote_average.desc'`. -/
inductive SortKey where
  | popularity
  | releaseDate
  | voteAverage
  deriving DecidableEq, Repr

/-- One run of the effect of lines 311-350: the variables captured by the
`fetchMovies` closure, its own `isMounted` variable (line 312, set to `false`
by the cleanup of line 348), and whether its request has settled. `id` is the
number of effect runs before this one. -/
structure FetchClosure where
  id : Nat
  view : View
  timeWindow : TimeWindow
  sortBy : SortKey
  selectedGenres : List Int
  page : Nat
  isMounted : Bool
  settled : Bool
  deriving DecidableEq, Repr

/-- The state cells of `MovieList` (lines 295-302) and the effect runs so
far, newest first. `movies` is `none` when the cell holds `undefined`. -/
structure MovieListState where
  view : View
  timeWindow : TimeWindow
  movies : Option (List Movie)
  selectedGenres : List Int
  sortBy : SortKey
  page : Nat
  loading : Bool
  fetches : List FetchClosure
  deriving DecidableEq, Repr

/-- What `await fetch(url)` followed by `await response.json()` (lines
326-327) produces: either of them throws, or `data` is an object whose
`results` is an array or is missing. -/
inductive FetchOutcome where
  | failed
  | body (results : Option (List Movie))
  deriving DecidableEq, Repr

/-- The click handlers of `MovieList`: the two view tabs (lines 367, 376),
the two time-window tabs (lines 389, 395), the three sort buttons (lines 416,
422, 428), a genre button (line 95 calling `handleGenreToggle`) and the Load
More button (line 443). -/
inductive Action where
  | setView (v : View)
  | setTimeWindow (w : TimeWindow)
  | setSortBy (k : SortKey)
  | toggleGenre (genreId : Int)
  | loadMore
  deriving DecidableEq, Repr

/-- The actions that change a request parameter other than the page: every
action but Load More. -/
def Action.isParamChange : Action → Bool
  | .loadMore => false
  | _ => true

namespace MovieList

/-! ## MovieList -/

/-- The `useState` defaults of lines 295-302, before the first effect run. -/
def initial : MovieListState :=
  { view := .trending, timeWindow := .day, movies := some [], selectedGenres := [],
    sortBy := .popularity, page := 1, loading := false, fetches := [] }

/-- The updater of lines 353-357:
`prev.includes(genreId) ? prev.filter(id => id !== genreId) : [...prev, genreId]`. -/
def handleGenreToggle (prev : List Int) (genreId : Int) : List Int :=
  if prev.contains genreId then prev.filter (fun id => id != genreId)
  else prev ++ [genreId]

/-- The cleanup of lines 347-349, run for the previous effect run only:
its closure's `isMounted` becomes `false`. -/
def cleanup : List FetchClosure → List FetchClosure
  | [] => []
  | c :: rest => { c with isMounted := false } :: rest

/-- The closure created by an effect run in state `s` (lines 312-345). -/
def newClosure (s : MovieListState) : FetchClosure :=
  { id := s.fetches.length, view := s.view, timeWindow := s.timeWindow,
    sortBy := s.sortBy, selectedGenres := s.selectedGenres, page := s.page,
    isMounted := true, settled := false }

/-- One run of the effect (lines 311-350): the previous run's cleanup, then
`setLoading(true)` and a new request. -/
def runEffect (s : MovieListState) : MovieListState :=
  { s with loading := true, fetches := newClosure s :: cleanup s.fetches }

/-- The component as first mounted: the defaults, then the first effect run. -/
def mount : MovieListState := runEffect initial

/-- The state-setter calls of each handler, without the effect. -/
def update (s : MovieListState) : Action → MovieListState
  | .setView v => { s with view := v, page := 1 }
  | .setTimeWindow w => { s with timeWindow := w, page := 1 }
  | .setSortBy k => { s with sortBy := k, page := 1 }
  | .toggleGenre g =>
      { s with selectedGenres := handleGenreToggle s.selectedGenres g, page := 1 }
  | .loadMore => { s with page := s.page + 1 }

/-- Whether the dependency array of line 350 differs after the handler ran.
`view`, `timeWindow`, `sortBy` and `page` are compared by value;
`selectedGenres` is compared by identity, and `handleGenreToggle` always
builds a new array (`filter` and the array literal both allocate). -/
def triggersFetch (s : MovieListState) (a : Action) : Bool :=
  match a with
  | .toggleGenre _ => true
  | _ =>
    let t := update s a
    t.view != s.view || t.timeWindow != s.timeWindow || t.sortBy != s.sortBy
      || t.page != s.page

/-- A click handler followed by the re-render: the setters, then the effect
when a dependency changed. -/
def handle (s : MovieListState) (a : Action) : MovieListState :=
  if triggersFetch s a then runEffect (update s a) else update s a

/-- Whether the control of an action is on screen and enabled: the
time-window tabs are rendered under `view === 'trending'` (line 385), the
genre and sort buttons under `view === 'discover'` (line 403), and Load More
is `disabled={loading}` (line 444). -/
def clickable (s : MovieListState) : Action → Bool
  | .setView _ => true
  | .setTimeWindow _ => s.view == .trending
  | .setSortBy _ => s.view == .discover
  | .toggleGenre _ => s.view == .discover
  | .loadMore => !s.loading

/-- A click on a control: nothing happens when the control is absent or
disabled. -/
def click (s : MovieListState) (a : Action) : MovieListState :=
  if clickable s a then handle s a else s

/-- The id of the most recent effect run. -/
def latestId (s : MovieListState) : Nat :=
  match s.fetches with
  | [] => 0
  | c :: _ => c.id

/-- Marks the request `id` as settled. -/
def settle (id : Nat) (fs : List FetchClosure) : List FetchClosure :=
  fs.map (fun c => if c.id == id then { c with settled := true } else c)

/-- The request of effect run `id` settles with outcome `o` (lines 326-342).
A request settles once. Under `isMounted`, page 1 stores `data.results`
as it is (line 331) and a later page stores `[...prev, ...data.results]`
(line 333), which throws when either is not an array; a failure only clears
`loading` (line 340). -/
def respond (s : MovieListState) (id : Nat) (o : FetchOutcome) :
    Except String MovieListState :=
  match s.fetches.find? (fun c => c.id == id && !c.settled) with
  | none => .ok s
  | some c =>
    let s1 := { s with fetches := settle id s.fetches }
    if c.isMounted then
      match o with
      | .failed => .ok { s1 with loading := false }
      | .body results =>
        if c.page == 1 then .ok { s1 with movies := results, loading := false }
        else
          match s1.movies, results with
          | some prev, some r => .ok { s1 with movies := some (prev ++ r), loading := false }
          | _, _ => .error "TypeError: not iterable"
    else .ok s1

/-- Load More clicked once per response, each response applied before the
next click. -/
def loadMorePages : MovieListState → List (List Movie) → Except String MovieListState
  | s, [] => .ok s
  | s, r :: rs =>
    let s1 := click s .loadMore
    match respond s1 (latestId s1) (.body (some r)) with
    | .ok s2 => loadMorePages s2 rs
    | .error e => .error e

/-- Page 1 loaded by the pending request, then the later pages by Load
More. -/
def loadPages (s : MovieListState) : List (List Movie) → Except String MovieListState
  | [] => .ok s
  | r :: rs =>
    match respond s (latestId s) (.body (some r)) with
    | .ok s1 => loadMorePages s1 rs
    | .error e => .error e

end MovieList

/-! ## App: search and view selection -/

/-- The code points removed by `String.prototype.trim`: the ECMAScript
WhiteSpace and LineTerminator productions. -/
def isJsWhiteSpace (c : Char) : Bool :=
  c.val == 0x09 || c.val == 0x0A || c.val == 0x0B || c.val == 0x0C || c.val == 0x0D
    || c.val == 0x20 || c.val == 0xA0 || c.val == 0x1680
    || (0x2000 ≤ c.val && c.val ≤ 0x200A)
    || c.val == 0x2028 || c.val == 0x2029 || c.val == 0x202F || c.val == 0x205F
    || c.val == 0x3000 || c.val == 0xFEFF

/-- The function `String.prototype.trim`: white space dropped at both ends. -/
def jsTrim (q : String) : String :=
  String.mk ((q.data.dropWhile isJsWhiteSpace).reverse.dropWhile isJsWhiteSpace).reverse

/-- Truthiness of a string: it is not empty. -/
def jsTruthyString (q : String) : Bool := !q.data.isEmpty

/-- The state cells of `App` (lines 456-460) and the `query` of every search
request issued so far, newest first. -/
structure AppState where
  selectedMovieId : Option Int
  searchQuery : String
  searchResults : Option (List Movie)
  isSearching : Bool
  searchLoading : Bool
  searchRequests : List String
  deriving DecidableEq, Repr

/-- What `App` renders (lines 518-532). -/
inductive AppView where
  | viewingDetail (movieId : Int)
  | searching
  | listing
  deriving DecidableEq, Repr

namespace App

/-- The `useState` defaults of lines 456-460. -/
def initial : AppState :=
  { selectedMovieId := none, searchQuery := "", searchResults := some [],
    isSearching := false, searchLoading := false, searchRequests := [] }

/-- The handler `handleSearch` (lines 462-481), up to the request being
issued. -/
def handleSearch (s : AppState) (query : String) : AppState :=
  if jsTruthyString (jsTrim query) then
    { s with searchQuery := query, isSearching := true, searchLoading := true,
             searchRequests := query :: s.searchRequests }
  else
    { s with searchQuery := query, isSearching := false, searchResults := some [] }

/-- A search request settles (lines 468-476); no guard protects the cells. -/
def searchRespond (s : AppState) : FetchOutcome → AppState
  | .failed => { s with searchLoading := false }
  | .body results => { s with searchResults := results, searchLoading := false }

/-- The logo's `onClick` (lines 489-493). -/
def logoClick (s : AppState) : AppState :=
  { s with selectedMovieId := none, isSearching := false, searchQuery := "" }

/-- The `onBack` of line 521. -/
def onBack (s : AppState) : AppState :=
  { s with selectedMovieId := none }

/-- The `onMovieClick` of lines 528 and 531, called by `MovieCard` with
`movie.id` (line 33). -/
def onMovieClick (s : AppState) (movieId : Int) : AppState :=
  { s with selectedMovieId := some movieId }

/-- The conditional of lines 518-532. `selectedMovieId ? ... : ...` tests
truthiness: `null` and the number 0 both take the second branch. -/
def currentView (s : AppState) : AppView :=
  match s.selectedMovieId with
  | some n => if n != 0 then .viewingDetail n else if s.isSearching then .searching else .listing
  | none => if s.isSearching then .searching else .listing

end App

/-! ## MovieDetails -/

/-- An entry of `creditsData.cast` or `creditsData.crew`; `job` is absent on
cast entries. -/
structure Person where
  id : Int
  name : String
  job : Option String
  deriving DecidableEq, Repr

/-- The body of the credits response, with `cast` and `crew` possibly
missing (an error body carries neither). -/
structure CreditsData where
  cast : Option (List Person)
  crew : Option (List Person)
  deriving DecidableEq, Repr

/-- The body of the detail response; the fields read by the render of lines
170-255. -/
structure MovieData where
  title : Option String
  overview : Option String
  tagline : Option String
  release_date : Option String
  runtime : Option Nat
  deriving DecidableEq, Repr

/-- The object passed to `setMovie` (lines 142-148): the fields of
`movieData`, then `cast` and `crew`. -/
structure MovieRecord where
  details : MovieData
  cast : List Person
  crew : List Person
  deriving DecidableEq, Repr

/-- The state cells of `MovieDetails` (lines 127-128); `movie` is `none` while
it holds `null`. -/
structure DetailState where
  movie : Option MovieRecord
  loading : Bool
  deriving DecidableEq, Repr

/-- How one `fetch` of line 135 or 136 and its `.json()` (lines 139-140)
end: the fetch rejects, the body is not JSON, or the body is parsed. -/
inductive Fetched (α : Type) where
  | rejected
  | unparsable
  | json (data : α)
  deriving DecidableEq, Repr

/-- What `MovieDetails` renders (lines 159-168): the skeleton, nothing, or
the page of a record. -/
inductive DetailView where
  | skeleton
  | nothing
  | page (movie : MovieRecord)
  deriving DecidableEq, Repr

namespace MovieDetails

/-- The function `Array.prototype.slice(start, end)` with integer arguments:
a negative index counts from the end, and both are clamped to the array. -/
def jsSlice {α : Type} (xs : List α) (start stop : Int) : List α :=
  let len : Int := xs.length
  let k : Int := if start < 0 then max (len + start) 0 else min start len
  let final : Int := if stop < 0 then max (len + stop) 0 else min stop len
  (xs.drop k.toNat).take (final - k).toNat

/-- The predicate of lines 145-147:
`person.job === "Director" || person.job === "Writer"`. -/
def isDirectorOrWriter (person : Person) : Bool :=
  person.job == some "Director" || person.job == some "Writer"

/-- The `cast` of line 144: `creditsData.cast?.slice(0, 10) || []`. -/
def castOf (creditsData : CreditsData) : List Person :=
  match creditsData.cast with
  | some cast => jsSlice cast 0 10
  | none => []

/-- The `crew` of lines 145-147: `creditsData.crew?.filter(...) || []`. -/
def crewOf (creditsData : CreditsData) : List Person :=
  match creditsData.crew with
  | some crew => crew.filter isDirectorOrWriter
  | none => []

/-- The `useState` defaults of lines 127-128. -/
def initial : DetailState := { movie := none, loading := true }

/-- The function `fetchMovieDetails` (lines 131-154) run to its end: when
both requests deliver JSON the record is stored; when `Promise.all` or a
`.json()` rejects, the `catch` leaves `movie` alone. `finally` clears
`loading`. -/
def fetchMovieDetails (s : DetailState) (movieFetch : Fetched MovieData)
    (creditsFetch : Fetched CreditsData) : DetailState :=
  match movieFetch, creditsFetch with
  | .json movieData, .json creditsData =>
    { movie := some { details := movieData, cast := castOf creditsData,
                      crew := crewOf creditsData },
      loading := false }
  | _, _ => { s with loading := false }

/-- The render of lines 159-168. -/
def render (s : DetailState) : DetailView :=
  if s.loading then .skeleton
  else
    match s.movie with
    | none => .nothing
    | some movie => .page movie

end MovieDetails

/-! ## Auxiliary predicates and sample data -/

/-- The state in which page 1 is being loaded: the page cell is 1 and the
most recent effect run captured page 1, is still mounted and has not
settled. -/
def awaitsPageOne (s : MovieListState) : Bool :=
  match s.fetches with
  | [] => false
  | c :: _ => s.page == 1 && c.page == 1 && c.isMounted && !c.settled


/-- A sample movie. -/
def sampleMovie (n : Int) : Movie := { id := n, title := "movie", poster_path := none }

/-- A page of 20 sample movies with ids `n+1 .. n+20`. -/
def samplePage (n : Nat) : List Movie :=
  (List.range 20).map (fun i => sampleMovie (n + i + 1))

/-- The list after the first page `[sampleMovie 1]` has been applied to the
mounted component. -/
def sampleLoaded : MovieListState :=
  { view := .trending, timeWindow := .day, movies := some [sampleMovie 1],
    selectedGenres := [], sortBy := .popularity, page := 1, loading := false,
    fetches := [{ id := 0, view := .trending, timeWindow := .day, sortBy := .popularity,
                  selectedGenres := [], page := 1, isMounted := true, settled := true }] }

/-- A search in progress with earlier results on screen. -/
def sampleSearching : AppState :=
  { selectedMovieId := none, searchQuery := "dune", searchResults := some [sampleMovie 3],
    isSearching := true, searchLoading := true, searchRequests := ["dune", "dun"] }

/-- A detail body with a title and an overview. -/
def sampleMovieData : MovieData :=
  { title := some "Dune", overview := some "A desert planet.", tagline := none,
    release_date := some "2021-09-15", runtime := some 155 }

/-- A crew in which person 7 is both Director and Writer, with a Producer
between the two entries. -/
def sampleCrew : List Person :=
  [{ id := 7, name := "Denis", job := some "Director" },
   { id := 8, name := "Mary", job := some "Producer" },
   { id := 7, name := "Denis", job := some "Writer" }]

/-- A cast of twelve. -/
def sampleCast : List Person :=
  (List.range 12).map (fun i => { id := i, name := "actor", job := none })

/-! ## Request URLs, event sequences and further sample data -/

/-- The constant `BASE_URL` of line 5. -/
def BASE_URL : String := "https://api.themoviedb.org/3"

/-- The string a `timeWindow` value is. -/
def TimeWindow.text : TimeWindow → String
  | .day => "day"
  | .week => "week"

/-- The string a `sortBy` value is. -/
def SortKey.text : SortKey → String
  | .popularity => "popularity.desc"
  | .releaseDate => "release_date.desc"
  | .voteAverage => "vote_average.desc"

namespace MovieList

/-- The function `Array.prototype.join(',')` on an array of integers. -/
def joinIds (ids : List Int) : String :=
  ",".intercalate (ids.map toString)

/-- The `url` of lines 317-324, built by the closure of an effect run.
`API_KEY` is the value of `import.meta.env.VITE_TMDB_API_KEY` (line 4). -/
def fetchUrl (API_KEY : String) (c : FetchClosure) : String :=
  match c.view with
  | .trending =>
    BASE_URL ++ "/trending/movie/" ++ c.timeWindow.text ++ "?api_key=" ++ API_KEY
      ++ "&page=" ++ toString c.page
  | .discover =>
    BASE_URL ++ "/discover/movie?api_key=" ++ API_KEY ++ "&sort_by=" ++ c.sortBy.text
      ++ "&page=" ++ toString c.page
      ++ (if c.selectedGenres.length != 0 then "&with_genres=" ++ joinIds c.selectedGenres
          else "")

/-- The query parameters of the discover request, name and value, in the
order in which lines 321-323 write them. -/
def discoverParams (API_KEY : String) (c : FetchClosure) : List (String × String) :=
  [("api_key", API_KEY), ("sort_by", c.sortBy.text), ("page", toString c.page)]
    ++ (if c.selectedGenres.length != 0 then [("with_genres", joinIds c.selectedGenres)]
        else [])

/-- A URL written out from its path and its query parameters:
`path?name=value&name=value...`. -/
def renderUrl (path : String) (params : List (String × String)) : String :=
  path ++ "?" ++ "&".intercalate (params.map (fun kv => kv.1 ++ "=" ++ kv.2))

/-- Whether request `id` is in flight and not superseded: its closure has not
settled and its `isMounted` is still `true`. -/
def isLive (s : MovieListState) (id : Nat) : Bool :=
  match s.fetches.find? (fun c => c.id == id && !c.settled) with
  | some c => c.isMounted
  | none => false

/-- The component unmounted (`App` shows the search results or a detail page)
and mounted again: the last effect's cleanup runs, the cells start from
their defaults and the effect runs. Requests of the old instance stay in the
log. -/
def remount (s : MovieListState) : MovieListState :=
  runEffect { initial with fetches := cleanup s.fetches }

/-- What can happen to a `MovieList`: a click on a control (ignored when the
control is absent or disabled), a handler run whatever the control's state,
a request settling, and the component being mounted anew. -/
inductive Event where
  | click (a : Action)
  | call (a : Action)
  | settle (id : Nat) (o : FetchOutcome)
  | remount
  deriving DecidableEq, Repr

/-- One event. -/
def step (s : MovieListState) : Event → Except String MovieListState
  | .click a => .ok (click s a)
  | .call a => .ok (handle s a)
  | .settle id o => respond s id o
  | .remount => .ok (remount s)

/-- A sequence of events, stopping at the first exception. -/
def run (s : MovieListState) : List Event → Except String MovieListState
  | [] => .ok s
  | e :: es =>
    match step s e with
    | .ok s1 => run s1 es
    | .error m => .error m

end MovieList

/-- The Discover tab clicked on `sampleLoaded`: request 1 (discover, page 1)
is in flight. -/
def sampleDiscover : MovieListState :=
  MovieList.click sampleLoaded (.setView .discover)

/-- Load More clicked on `sampleLoaded`: request 1 (trending, page 2) is in
flight. -/
def sampleSecondPage : MovieListState :=
  MovieList.click sampleLoaded .loadMore

/-- The Discover tab clicked right after mounting: request 0 (trending) is
superseded by request 1 (discover) before it settles. -/
def sampleSuperseded : MovieListState :=
  MovieList.click MovieList.mount (.setView .discover)

/-- A discover closure with two selected genres. -/
def sampleDiscoverClosure : FetchClosure :=
  { id := 3, view := .discover, timeWindow := .day, sortBy := .voteAverage,
    selectedGenres := [28, 12], page := 2, isMounted := true, settled := false }

/-- The search "dune" answered with movie 5, which is then selected. -/
def sampleDetailFromSearch : AppState :=
  App.onMovieClick
    (App.searchRespond (App.handleSearch App.initial "dune") (.body (some [sampleMovie 5]))) 5

/-! ## Theorems: MovieList -/

namespace MovieList

theorem update_page_of_paramChange (s : MovieListState) (a : Action)
    (h : a.isParamChange = true) : (update s a).page = 1 := by
  cases a <;> simp_all [update, Action.isParamChange]

theorem runEffect_page (s : MovieListState) : (runEffect s).page = s.page := rfl

theorem runEffect_movies (s : MovieListState) : (runEffect s).movies = s.movies := rfl

theorem update_movies (s : MovieListState) (a : Action) : (update s a).movies = s.movies := by
  cases a <;> rfl

theorem handle_keeps_movies_aux (s : MovieListState) (a : Action) :
    (handle s a).movies = s.movies := by
  unfold handle
  split
  · rw [runEffect_movies, update_movies]
  · exact update_movies s a

/-- C1: every parameter-changing handler of `MovieList` (view tab, time-window
tab, sort button, genre toggle), run in any state, leaves the page number
equal to 1. -/
theorem handle_paramChange_page (s : MovieListState) (a : Action)
    (h : a.isParamChange = true) : (handle s a).page = 1 := by
  unfold handle
  split
  · rw [runEffect_page]; exact update_page_of_paramChange s a h
  · exact update_page_of_paramChange s a h

/-- Witness of C1: from page 7 with a loaded list, toggling genre 28 gives
page 1. -/
theorem handle_paramChange_page_witness :
    (handle { sampleLoaded with page := 7 } (.toggleGenre 28)).page = 1 :=
  handle_paramChange_page { sampleLoaded with page := 7 } (.toggleGenre 28) rfl

/-- C2, as stated, fails: `sampleLoaded` is the mounted component after its
first response `[sampleMovie 1]`, and the Discover tab clicked there leaves
that list in place instead of an empty one. -/
theorem handle_does_not_clear_movies :
    respond mount 0 (.body (some [sampleMovie 1])) = .ok sampleLoaded
      ∧ Action.isParamChange (.setView .discover) = true
      ∧ (handle sampleLoaded (.setView .discover)).movies = some [sampleMovie 1]
      ∧ (handle sampleLoaded (.setView .discover)).movies ≠ some [] := by
  refine ⟨rfl, rfl, rfl, ?_⟩
  decide

/-- C2, amended: no handler of `MovieList` touches the accumulated list; the
action itself leaves `movies` exactly as it was. -/
theorem handle_keeps_movies (s : MovieListState) (a : Action) :
    (handle s a).movies = s.movies := by
  unfold handle
  split
  · rw [runEffect_movies, update_movies]
  · exact update_movies s a

theorem respond_latest_body (s : MovieListState) (c : FetchClosure)
    (rest : List FetchClosure) (results : Option (List Movie))
    (hf : s.fetches = c :: rest) (hm : c.isMounted = true) (hs : c.settled = false) :
    respond s (latestId s) (.body results) =
      if c.page == 1 then
        .ok { s with fetches := settle c.id s.fetches, movies := results, loading := false }
      else
        match s.movies, results with
        | some prev, some r =>
          .ok { s with fetches := settle c.id s.fetches, movies := some (prev ++ r),
                       loading := false }
        | _, _ => .error "TypeError: not iterable" := by
  unfold respond latestId
  rw [hf]
  simp [List.find?, hs, hm]

theorem respond_runEffect_first (t : MovieListState) (results : Option (List Movie))
    (hp : t.page = 1) :
    ∃ s', respond (runEffect t) (latestId (runEffect t)) (.body results) = .ok s'
      ∧ s'.movies = results ∧ s'.loading = false ∧ s'.page = 1 := by
  have h := respond_latest_body (runEffect t) (newClosure t) (cleanup t.fetches) results
    rfl rfl rfl
  rw [h]
  simp [newClosure, hp, runEffect]

theorem respond_runEffect_next (t : MovieListState) (prev r : List Movie)
    (hp : t.page ≠ 1) (hm : t.movies = some prev) :
    ∃ s', respond (runEffect t) (latestId (runEffect t)) (.body (some r)) = .ok s'
      ∧ s'.movies = some (prev ++ r) ∧ s'.loading = false ∧ s'.page = t.page := by
  have h := respond_latest_body (runEffect t) (newClosure t) (cleanup t.fetches) (some r)
    rfl rfl rfl
  rw [h]
  simp [newClosure, hp, runEffect, hm]

theorem click_loadMore_of_idle (s : MovieListState) (h : s.loading = false) :
    click s .loadMore = runEffect (update s .loadMore) := by
  simp [click, clickable, h, handle, triggersFetch, update]

theorem loadMorePages_append (rs : List (List Movie)) :
    ∀ (s : MovieListState) (acc : List Movie), s.loading = false → s.movies = some acc →
      s.page ≠ 0 →
      ∃ s', loadMorePages s rs = .ok s' ∧ s'.movies = some (acc ++ rs.flatten)
        ∧ s'.page = s.page + rs.length := by
  induction rs with
  | nil =>
    intro s acc _ hm _
    exact ⟨s, rfl, by simpa using hm, by simp⟩
  | cons r rs ih =>
    intro s acc hl hm hp
    have hnext := respond_runEffect_next (update s .loadMore) acc r
      (by simpa [update] using hp) (by simpa [update] using hm)
    obtain ⟨s2, h2, hm2, hl2, hp2⟩ := hnext
    obtain ⟨s3, h3, hm3, hp3⟩ := ih s2 (acc ++ r) hl2 hm2 (by rw [hp2]; simp [update])
    refine ⟨s3, ?_, ?_, ?_⟩
    · simp only [loadMorePages]
      rw [click_loadMore_of_idle s hl, h2]
      exact h3
    · rw [hm3]; simp
    · rw [hp3, hp2]; simp [update]; omega

/-- C3: for every prior state and every parameter-changing action that
issues a request, applying the response of that request makes the accumulated
list exactly that response's `results`: nothing of the prior list is
retained, and the length is that of the one page. -/
theorem respond_after_paramChange (s : MovieListState) (a : Action)
    (results : Option (List Movie)) (ha : a.isParamChange = true)
    (ht : triggersFetch s a = true) :
    ∃ s', respond (handle s a) (latestId (handle s a)) (.body results) = .ok s'
      ∧ s'.movies = results
      ∧ (∀ r, results = some r → s'.movies.map List.length = some r.length) := by
  have hh : handle s a = runEffect (update s a) := by simp [handle, ht]
  obtain ⟨s', h1, h2, _, _⟩ :=
    respond_runEffect_first (update s a) results (update_page_of_paramChange s a ha)
  refine ⟨s', by rw [hh]; exact h1, h2, ?_⟩
  intro r hr
  rw [h2, hr]
  rfl

/-- Witness of C3: with `[sampleMovie 1]` loaded, the Discover tab is
clicked and its response `[sampleMovie 5, sampleMovie 6]` becomes the whole
list. -/
theorem respond_after_paramChange_witness :
    ∃ s', respond (handle sampleLoaded (.setView .discover))
          (latestId (handle sampleLoaded (.setView .discover)))
          (.body (some [sampleMovie 5, sampleMovie 6])) = .ok s'
      ∧ s'.movies = some [sampleMovie 5, sampleMovie 6]
      ∧ (∀ r, some [sampleMovie 5, sampleMovie 6] = some r →
          s'.movies.map List.length = some r.length) :=
  respond_after_paramChange sampleLoaded (.setView .discover)
    (some [sampleMovie 5, sampleMovie 6]) rfl rfl

/-- C4: when page 1 is being loaded and the responses `r1, ..., rN` (N >= 1)
are applied in request order, Load More being clicked between them, the run
succeeds and the accumulated list is `r1 ++ ... ++ rN`, in that order, with
nothing dropped or merged; the page number is then N. -/
theorem loadPages_concat (s : MovieListState) (rs : List (List Movie))
    (hs : awaitsPageOne s = true) (hrs : rs ≠ []) :
    ∃ s', loadPages s rs = .ok s' ∧ s'.movies = some rs.flatten
      ∧ s'.page = rs.length := by
  cases rs with
  | nil => exact absurd rfl hrs
  | cons r rs =>
    unfold awaitsPageOne at hs
    cases hf : s.fetches with
    | nil => simp [hf] at hs
    | cons c rest =>
      simp only [hf, Bool.and_eq_true, beq_iff_eq, Bool.not_eq_true'] at hs
      obtain ⟨⟨⟨hp, hcp⟩, hm⟩, hst⟩ := hs
      have h1 := respond_latest_body s c rest (some r) hf hm hst
      simp only [hcp, beq_self_eq_true, if_true] at h1
      obtain ⟨s3, h3, hm3, hp3⟩ := loadMorePages_append rs
        { s with fetches := settle c.id s.fetches, movies := some r, loading := false }
        r rfl rfl (by simp [hp])
      refine ⟨s3, ?_, ?_, ?_⟩
      · simp only [loadPages]
        rw [h1]
        exact h3
      · rw [hm3]; simp
      · rw [hp3]; simp [hp]; omega

/-- Witness of C4: the mounted component receives a 20-item page 1, Load
More is clicked, and a 20-item page 2 arrives. -/
theorem loadPages_concat_witness :
    ∃ s', loadPages mount [samplePage 0, samplePage 20] = .ok s'
      ∧ s'.movies = some [samplePage 0, samplePage 20].flatten
      ∧ s'.page = [samplePage 0, samplePage 20].length :=
  loadPages_concat mount [samplePage 0, samplePage 20] rfl (by simp)

theorem triggersFetch_toggleGenre (s : MovieListState) (g : Int) :
    triggersFetch s (.toggleGenre g) = true := rfl

theorem mem_handleGenreToggle_self (s : List Int) (g : Int) :
    g ∈ handleGenreToggle s g ↔ g ∉ s := by
  unfold handleGenreToggle
  by_cases h : g ∈ s <;> simp [h]

theorem mem_handleGenreToggle_other (s : List Int) (g h : Int) (hne : h ≠ g) :
    h ∈ handleGenreToggle s g ↔ h ∈ s := by
  unfold handleGenreToggle
  by_cases hg : g ∈ s <;> simp [hg, hne]

theorem mem_handleGenreToggle_twice (s : List Int) (g h : Int) :
    h ∈ handleGenreToggle (handleGenreToggle s g) g ↔ h ∈ s := by
  by_cases hne : h = g
  · subst hne
    rw [mem_handleGenreToggle_self, mem_handleGenreToggle_self]
    exact not_not
  · rw [mem_handleGenreToggle_other _ _ _ hne, mem_handleGenreToggle_other _ _ _ hne]

/-- The array itself returns when the id was absent: it is appended, then
filtered out again. -/
theorem handleGenreToggle_twice_of_not_mem (s : List Int) (g : Int) (h : g ∉ s) :
    handleGenreToggle (handleGenreToggle s g) g = s := by
  have hf : s.filter (fun id => id != g) = s := by
    rw [List.filter_eq_self]
    intro a ha
    have : a ≠ g := fun e => h (e ▸ ha)
    simpa using this
  simp [handleGenreToggle, h, hf]

/-- When the id was present it comes back at the end of the array: the order
of the array can differ from the original although the ids are the same. -/
theorem handleGenreToggle_twice_moves_last :
    handleGenreToggle (handleGenreToggle [28, 12] 28) 28 = [12, 28] := by
  decide

/-- C5: `handleGenreToggle(g)` is a symmetric toggle: the new selection
contains `g` exactly when the old one did not, every other id is in the new
selection exactly when it was in the old one, and from the empty selection
toggling 28, 12, 28 leaves the selection `[12]`. -/
theorem handleGenreToggle_symmetric (s : List Int) (g : Int) :
    (g ∈ handleGenreToggle s g ↔ g ∉ s)
      ∧ (∀ h, h ≠ g → (h ∈ handleGenreToggle s g ↔ h ∈ s))
      ∧ handleGenreToggle (handleGenreToggle (handleGenreToggle [] 28) 12) 28 = [12] :=
  ⟨mem_handleGenreToggle_self s g, fun h hne => mem_handleGenreToggle_other s g h hne,
    by decide⟩

/-- Witness of C5: toggling 28 in `[28, 12]` removes 28 and keeps 12. -/
theorem handleGenreToggle_symmetric_witness :
    ((28 : Int) ∈ handleGenreToggle [28, 12] 28 ↔ (28 : Int) ∉ [28, 12])
      ∧ ((12 : Int) ∈ handleGenreToggle [28, 12] 28 ↔ (12 : Int) ∈ [28, 12]) :=
  ⟨(handleGenreToggle_symmetric [28, 12] 28).1,
    (handleGenreToggle_symmetric [28, 12] 28).2.1 12 (by decide)⟩

/-- C6: `handleGenreToggle(g)` applied twice gives back the original set of
selected ids: the two selections have the same members. -/
theorem handleGenreToggle_twice_set (s : List Int) (g : Int) :
    (handleGenreToggle (handleGenreToggle s g) g).toFinset = s.toFinset
      ∧ (∀ h, h ∈ handleGenreToggle (handleGenreToggle s g) g ↔ h ∈ s) := by
  refine ⟨?_, fun h => mem_handleGenreToggle_twice s g h⟩
  ext h
  simp only [List.mem_toFinset]
  exact mem_handleGenreToggle_twice s g h

end MovieList

/-! ## Theorems: App -/

namespace App

theorem jsTrim_of_whiteSpace (q : String) (h : ∀ c ∈ q.data, isJsWhiteSpace c = true) :
    (jsTrim q).data = [] := by
  have h1 : q.data.dropWhile isJsWhiteSpace = [] := by
    rw [List.dropWhile_eq_nil_iff]
    exact h
  simp [jsTrim, h1]

/-- C7: for a query that is empty or made of white space only, and any prior
search state, `handleSearch` leaves the result list empty and `isSearching`
false, and issues no request. -/
theorem handleSearch_blank (s : AppState) (q : String)
    (h : ∀ c ∈ q.data, isJsWhiteSpace c = true) :
    (handleSearch s q).searchResults = some []
      ∧ (handleSearch s q).isSearching = false
      ∧ (handleSearch s q).searchRequests = s.searchRequests := by
  have ht : jsTruthyString (jsTrim q) = false := by
    simp [jsTruthyString, jsTrim_of_whiteSpace q h]
  simp [handleSearch, ht]

/-- Witness of C7: two blanks typed while a search with results is in
progress. -/
theorem handleSearch_blank_witness :
    (handleSearch sampleSearching "  ").searchResults = some []
      ∧ (handleSearch sampleSearching "  ").isSearching = false
      ∧ (handleSearch sampleSearching "  ").searchRequests = sampleSearching.searchRequests :=
  handleSearch_blank sampleSearching "  " (by decide)

end App

/-! ## Theorems: MovieDetails -/

namespace MovieDetails

theorem jsSlice_zero {α : Type} (xs : List α) (n : Nat) :
    jsSlice xs 0 (n : Int) = xs.take (min n xs.length) := by
  unfold jsSlice
  have h0 : ¬ ((n : Int) < 0) := by omega
  have hk : (min (0 : Int) (xs.length : Int)).toNat = 0 := by omega
  have hf : (min (n : Int) (xs.length : Int) - min (0 : Int) (xs.length : Int)).toNat
      = min n xs.length := by omega
  simp only [lt_self_iff_false, if_false, h0, hk, hf, List.drop_zero]

theorem castOf_some (creditsData : CreditsData) (cast : List Person)
    (h : creditsData.cast = some cast) :
    castOf creditsData = cast.take (min 10 cast.length) := by
  unfold castOf
  rw [h]
  exact jsSlice_zero cast 10

theorem crewOf_some (creditsData : CreditsData) (crew : List Person)
    (h : creditsData.crew = some crew) :
    crewOf creditsData = crew.filter isDirectorOrWriter := by
  unfold crewOf
  rw [h]

theorem isDirectorOrWriter_iff (p : Person) :
    isDirectorOrWriter p = true ↔ (p.job = some "Director" ∨ p.job = some "Writer") := by
  simp [isDirectorOrWriter]

/-- C8 fails on the code: the detail request delivers a title and an
overview and the credits fetch rejects, or its body cannot be parsed; the
loader ends with no movie and the component renders nothing. A credits body
without `cast` and `crew`, in contrast, gives the page with both lists
empty, which is what lines 144-147 are written for. -/
theorem fetchMovieDetails_credits_rejected_no_movie :
    sampleMovieData.title = some "Dune"
      ∧ (fetchMovieDetails initial (.json sampleMovieData) .rejected).movie = none
      ∧ render (fetchMovieDetails initial (.json sampleMovieData) .rejected) = .nothing
      ∧ (fetchMovieDetails initial (.json sampleMovieData) .unparsable).movie = none
      ∧ render (fetchMovieDetails initial (.json sampleMovieData) .unparsable) = .nothing
      ∧ render (fetchMovieDetails initial (.json sampleMovieData)
          (.json { cast := none, crew := none }))
        = .page { details := sampleMovieData, cast := [], crew := [] } := by
  refine ⟨rfl, rfl, rfl, rfl, rfl, rfl⟩

/-- The three ways the credits request can end after a successful detail
request: a body without `cast` and `crew` gives the record with both lists
empty; a rejected fetch and an unparsable body both reach the `catch`, which
leaves the movie cell alone. -/
theorem fetchMovieDetails_credits_paths (s : DetailState) (movieData : MovieData) :
    (∀ creditsData : CreditsData, creditsData.cast = none → creditsData.crew = none →
        fetchMovieDetails s (.json movieData) (.json creditsData)
          = { movie := some { details := movieData, cast := [], crew := [] },
              loading := false })
      ∧ fetchMovieDetails s (.json movieData) .rejected
          = { movie := s.movie, loading := false }
      ∧ fetchMovieDetails s (.json movieData) .unparsable
          = { movie := s.movie, loading := false } := by
  refine ⟨?_, rfl, rfl⟩
  intro creditsData hc hw
  simp [fetchMovieDetails, castOf, crewOf, hc, hw]

/-- C9: for every crew list of the credits response, the stored crew is made
of the entries whose job is "Director" or "Writer" and of nothing else, in
source order, every qualifying entry kept as often as it occurs. -/
theorem fetchMovieDetails_crew (s : DetailState) (movieData : MovieData)
    (creditsData : CreditsData) (crew : List Person) (h : creditsData.crew = some crew) :
    ∃ r, (fetchMovieDetails s (.json movieData) (.json creditsData)).movie = some r
      ∧ r.crew.Sublist crew
      ∧ (∀ p ∈ r.crew, p.job = some "Director" ∨ p.job = some "Writer")
      ∧ (∀ p, (p.job = some "Director" ∨ p.job = some "Writer") →
          r.crew.count p = crew.count p)
      ∧ (∀ p, ¬ (p.job = some "Director" ∨ p.job = some "Writer") → r.crew.count p = 0) := by
  refine ⟨_, rfl, ?_, ?_, ?_, ?_⟩
  · show (crewOf creditsData).Sublist crew
    rw [crewOf_some creditsData crew h]
    exact List.filter_sublist crew
  · intro p hp
    change p ∈ crewOf creditsData at hp
    rw [crewOf_some creditsData crew h, List.mem_filter] at hp
    exact (isDirectorOrWriter_iff p).1 hp.2
  · intro p hp
    show (crewOf creditsData).count p = crew.count p
    rw [crewOf_some creditsData crew h]
    exact List.count_filter ((isDirectorOrWriter_iff p).2 hp)
  · intro p hp
    show (crewOf creditsData).count p = 0
    rw [crewOf_some creditsData crew h, List.count_eq_zero]
    intro hmem
    exact hp ((isDirectorOrWriter_iff p).1 (List.mem_filter.1 hmem).2)

/-- Witness of C9: in `sampleCrew` person 7 is kept twice, once per job, and
the Producer is dropped. -/
theorem fetchMovieDetails_crew_witness :
    ∃ r, (fetchMovieDetails initial (.json sampleMovieData)
            (.json { cast := none, crew := some sampleCrew })).movie = some r
      ∧ r.crew.Sublist sampleCrew
      ∧ (∀ p ∈ r.crew, p.job = some "Director" ∨ p.job = some "Writer")
      ∧ (∀ p, (p.job = some "Director" ∨ p.job = some "Writer") →
          r.crew.count p = sampleCrew.count p)
      ∧ (∀ p, ¬ (p.job = some "Director" ∨ p.job = some "Writer") → r.crew.count p = 0) :=
  fetchMovieDetails_crew initial sampleMovieData { cast := none, crew := some sampleCrew }
    sampleCrew rfl

/-- The stored crew of `sampleCrew`, entry by entry. -/
theorem crewOf_sampleCrew :
    crewOf { cast := none, crew := some sampleCrew }
      = [{ id := 7, name := "Denis", job := some "Director" },
         { id := 7, name := "Denis", job := some "Writer" }] := by
  decide

/-- C10: for every cast list `c` of the credits response, the stored cast is
the prefix of `c` of length `min 10 c.length`: at most 10 entries, the first
ones of `c` in source order. -/
theorem fetchMovieDetails_cast (s : DetailState) (movieData : MovieData)
    (creditsData : CreditsData) (cast : List Person) (h : creditsData.cast = some cast) :
    ∃ r, (fetchMovieDetails s (.json movieData) (.json creditsData)).movie = some r
      ∧ r.cast <+: cast
      ∧ r.cast.length = min 10 cast.length
      ∧ r.cast.length ≤ 10
      ∧ (∀ i : Nat, i < r.cast.length → r.cast[i]? = cast[i]?) := by
  have hc := castOf_some creditsData cast h
  refine ⟨_, rfl, ?_, ?_, ?_, ?_⟩
  · show castOf creditsData <+: cast
    rw [hc]
    exact List.take_prefix _ cast
  · show (castOf creditsData).length = min 10 cast.length
    rw [hc, List.length_take]
    omega
  · show (castOf creditsData).length ≤ 10
    rw [hc, List.length_take]
    omega
  · intro i hi
    change i < (castOf creditsData).length at hi
    show (castOf creditsData)[i]? = cast[i]?
    rw [hc] at hi ⊢
    rw [List.length_take] at hi
    rw [List.getElem?_take]
    simp only [ite_eq_left_iff]
    intro hn
    omega

/-- Witness of C10: of a cast of twelve the first ten are stored. -/
theorem fetchMovieDetails_cast_witness :
    ∃ r, (fetchMovieDetails initial (.json sampleMovieData)
            (.json { cast := some sampleCast, crew := none })).movie = some r
      ∧ r.cast <+: sampleCast
      ∧ r.cast.length = min 10 sampleCast.length
      ∧ r.cast.length ≤ 10
      ∧ (∀ i : Nat, i < r.cast.length → r.cast[i]? = sampleCast[i]?) :=
  fetchMovieDetails_cast initial sampleMovieData { cast := some sampleCast, crew := none }
    sampleCast rfl

theorem filter_isDirectorOrWriter_idem (crew : List Person) :
    (crew.filter isDirectorOrWriter).filter isDirectorOrWriter
      = crew.filter isDirectorOrWriter := by
  rw [List.filter_filter]
  congr 1
  funext p
  simp

/-- C11: the crew filter of the Detail Loader, applied to its own output,
gives that output back, entry for entry and in the same order; the output is
itself an order-preserving selection (a sublist) of the input. -/
theorem crewOf_idempotent (creditsData : CreditsData) (cast : Option (List Person)) :
    crewOf { cast := cast, crew := some (crewOf creditsData) } = crewOf creditsData
      ∧ (∀ crew, creditsData.crew = some crew → (crewOf creditsData).Sublist crew) := by
  constructor
  · show (crewOf creditsData).filter isDirectorOrWriter = crewOf creditsData
    unfold crewOf
    cases creditsData.crew with
    | none => rfl
    | some crew => exact filter_isDirectorOrWriter_idem crew
  · intro crew h
    rw [crewOf_some creditsData crew h]
    exact List.filter_sublist crew

/-- Witness of C11: `sampleCrew` filtered twice. -/
theorem crewOf_idempotent_witness :
    crewOf { cast := none, crew := some (crewOf { cast := none, crew := some sampleCrew }) }
        = crewOf { cast := none, crew := some sampleCrew }
      ∧ (crewOf { cast := none, crew := some sampleCrew }).Sublist sampleCrew :=
  ⟨(crewOf_idempotent { cast := none, crew := some sampleCrew } none).1,
    (crewOf_idempotent { cast := none, crew := some sampleCrew } none).2 sampleCrew rfl⟩

end MovieDetails

/-! ## Theorems: failures, stale responses and reachable states -/

namespace MovieList

theorem respond_failed_eq (s : MovieListState) (id : Nat) :
    respond s id .failed =
      match s.fetches.find? (fun c => c.id == id && !c.settled) with
      | none => .ok s
      | some c =>
        if c.isMounted then
          .ok { s with fetches := settle id s.fetches, loading := false }
        else .ok { s with fetches := settle id s.fetches } := by
  unfold respond
  cases s.fetches.find? (fun c => c.id == id && !c.settled) with
  | none => rfl
  | some c => cases hc : c.isMounted <;> simp

/-- C12: when a list request fails, the accumulated list is untouched, and
when the request is the current one (in flight and not superseded) the
loading flag is false afterwards; in particular a request issued by an action
and failing leaves the list held before the action and clears `loading`. -/
theorem respond_failed_keeps_movies (s : MovieListState) :
    (∀ id, ∃ s', respond s id .failed = .ok s' ∧ s'.movies = s.movies
        ∧ (isLive s id = true → s'.loading = false))
      ∧ (∀ a, triggersFetch s a = true →
          ∃ s', respond (handle s a) (latestId (handle s a)) .failed = .ok s'
            ∧ s'.movies = s.movies ∧ s'.loading = false) := by
  have key : ∀ (t : MovieListState) (id : Nat), ∃ s', respond t id .failed = .ok s'
      ∧ s'.movies = t.movies ∧ (isLive t id = true → s'.loading = false) := by
    intro t id
    rw [respond_failed_eq]
    unfold isLive
    cases t.fetches.find? (fun c => c.id == id && !c.settled) with
    | none => exact ⟨t, rfl, rfl, by simp⟩
    | some c =>
      cases hc : c.isMounted
      · exact ⟨{ t with fetches := settle id t.fetches }, by simp [hc], rfl, by simp [hc]⟩
      · exact ⟨{ t with fetches := settle id t.fetches, loading := false }, by simp [hc], rfl,
          fun _ => rfl⟩
  refine ⟨key s, ?_⟩
  intro a ha
  obtain ⟨s', h1, h2, h3⟩ := key (handle s a) (latestId (handle s a))
  refine ⟨s', h1, by rw [h2, handle_keeps_movies_aux s a], h3 ?_⟩
  simp [handle, ha, isLive, runEffect, latestId, newClosure, List.find?]

/-- Witness of C12: the Discover tab is clicked on a loaded list and its
request fails. -/
theorem respond_failed_keeps_movies_witness :
    ∃ s', respond (handle sampleLoaded (.setView .discover))
          (latestId (handle sampleLoaded (.setView .discover))) .failed = .ok s'
      ∧ s'.movies = sampleLoaded.movies ∧ s'.loading = false :=
  (respond_failed_keeps_movies sampleLoaded).2 (.setView .discover) rfl

/-- C13 fails on the code: with `[sampleMovie 1]` on screen, the response to
the Discover request carries no `results`; line 331 stores `undefined` in
place of the list. On a later page (Load More) the updater of line 333
throws. -/
theorem respond_without_results :
    sampleDiscover.movies = some [sampleMovie 1]
      ∧ isLive sampleDiscover 1 = true
      ∧ (∃ s', respond sampleDiscover 1 (.body none) = .ok s' ∧ s'.movies = none)
      ∧ respond sampleSecondPage 1 (.body none) = .error "TypeError: not iterable" :=
  ⟨rfl, rfl, ⟨_, rfl, rfl⟩, rfl⟩

theorem update_fetches (s : MovieListState) (a : Action) :
    (update s a).fetches = s.fetches := by
  cases a <;> rfl

theorem respond_ok_shape (s s' : MovieListState) (id : Nat) (o : FetchOutcome)
    (h : respond s id o = .ok s') :
    s'.page = s.page ∧ s'.selectedGenres = s.selectedGenres
      ∧ (s'.fetches = s.fetches ∨ s'.fetches = settle id s.fetches) := by
  unfold respond at h
  split at h
  · cases h; simp
  · dsimp only at h
    split at h
    · split at h
      · cases h; simp
      · split at h
        · cases h; simp
        · split at h
          · cases h; simp
          · cases h
    · cases h; simp

theorem run_induction (P : MovieListState → Prop)
    (hstep : ∀ s e s', P s → step s e = .ok s' → P s') :
    ∀ (evs : List Event) (s s' : MovieListState), P s → run s evs = .ok s' → P s' := by
  intro evs
  induction evs with
  | nil =>
    intro s s' hs h
    simp only [run] at h
    cases h
    exact hs
  | cons e es ih =>
    intro s s' hs h
    simp only [run] at h
    cases hst : step s e with
    | error m => rw [hst] at h; cases h
    | ok s1 =>
      rw [hst] at h
      exact ih s1 s' (hstep s e s1 hs hst) h

theorem step_cases (P : MovieListState → Prop) (s s' : MovieListState) (e : Event)
    (hs : P s)
    (hhandle : ∀ a, P (handle s a))
    (hrespond : ∀ id o t, respond s id o = .ok t → P t)
    (hremount : P (remount s))
    (h : step s e = .ok s') : P s' := by
  cases e with
  | click a =>
    simp only [step, click] at h
    cases h
    split
    · exact hhandle a
    · exact hs
  | call a =>
    simp only [step] at h
    cases h
    exact hhandle a
  | settle id o => exact hrespond id o s' h
  | remount =>
    simp only [step] at h
    cases h
    exact hremount

theorem handle_page_pos (s : MovieListState) (a : Action) :
    1 ≤ (handle s a).page := by
  have hu : 1 ≤ (update s a).page := by
    cases a <;> simp [update]
  unfold handle
  split
  · rw [runEffect_page]; exact hu
  · exact hu

theorem handle_fetches (s : MovieListState) (a : Action) :
    (handle s a).fetches = s.fetches
      ∨ (handle s a).fetches = newClosure (update s a) :: cleanup s.fetches := by
  unfold handle
  split
  · right
    show newClosure (update s a) :: cleanup (update s a).fetches = _
    rw [update_fetches]
  · left
    exact update_fetches s a

theorem cleanup_unmounted (fs : List FetchClosure)
    (h : ∀ d ∈ fs.tail, d.isMounted = false) : ∀ d ∈ cleanup fs, d.isMounted = false := by
  cases fs with
  | nil => intro d hd; simp [cleanup] at hd
  | cons c rest =>
    intro d hd
    simp only [cleanup, List.mem_cons] at hd
    rcases hd with hd | hd
    · rw [hd]
    · exact h d (by simpa using hd)

theorem settle_unmounted (id : Nat) (fs : List FetchClosure)
    (h : ∀ d ∈ fs.tail, d.isMounted = false) :
    ∀ d ∈ (settle id fs).tail, d.isMounted = false := by
  intro d hd
  cases fs with
  | nil => simp [settle] at hd
  | cons c0 rest =>
    simp only [settle, List.map_cons, List.tail_cons, List.mem_map] at hd
    obtain ⟨c, hc, rfl⟩ := hd
    have := h c (by simpa using hc)
    split <;> simpa using this

theorem step_tail_unmounted (s s' : MovieListState) (e : Event)
    (hs : ∀ d ∈ s.fetches.tail, d.isMounted = false) (h : step s e = .ok s') :
    ∀ d ∈ s'.fetches.tail, d.isMounted = false := by
  refine step_cases (fun t => ∀ d ∈ t.fetches.tail, d.isMounted = false) s s' e hs ?_ ?_ ?_ h
  · intro a
    rcases handle_fetches s a with hf | hf
    · show ∀ d ∈ (handle s a).fetches.tail, d.isMounted = false
      rw [hf]; exact hs
    · show ∀ d ∈ (handle s a).fetches.tail, d.isMounted = false
      rw [hf]
      exact cleanup_unmounted s.fetches hs
  · intro id o t ht
    obtain ⟨_, _, hf | hf⟩ := respond_ok_shape s t id o ht
    · show ∀ d ∈ t.fetches.tail, d.isMounted = false
      rw [hf]; exact hs
    · show ∀ d ∈ t.fetches.tail, d.isMounted = false
      rw [hf]; exact settle_unmounted id s.fetches hs
  · have h1 := cleanup_unmounted s.fetches hs
    exact cleanup_unmounted (cleanup s.fetches) (fun d hd => h1 d (List.mem_of_mem_tail hd))

theorem reachable_tail_unmounted (evs : List Event) (s : MovieListState)
    (h : run mount evs = .ok s) : ∀ d ∈ s.fetches.tail, d.isMounted = false :=
  run_induction (fun t => ∀ d ∈ t.fetches.tail, d.isMounted = false)
    (fun s e s' => step_tail_unmounted s s' e) evs mount s (by intro d hd; simp [mount, runEffect, initial, cleanup] at hd) h

theorem respond_stale (s : MovieListState) (id : Nat) (o : FetchOutcome)
    (hinv : ∀ d ∈ s.fetches.tail, d.isMounted = false) (hid : id ≠ latestId s) :
    ∃ s', respond s id o = .ok s' ∧ s'.movies = s.movies ∧ s'.loading = s.loading
      ∧ s'.page = s.page := by
  unfold respond
  cases hf : s.fetches with
  | nil => exact ⟨s, by simp, rfl, rfl, rfl⟩
  | cons c rest =>
    have hne : (c.id == id) = false := by
      have : c.id ≠ id := by
        intro e
        apply hid
        simp [latestId, hf, e]
      simpa using this
    have hfind : List.find? (fun c => c.id == id && !c.settled) (c :: rest)
        = List.find? (fun c => c.id == id && !c.settled) rest := by
      simp [List.find?, hne]
    rw [hfind]
    cases hr : List.find? (fun c => c.id == id && !c.settled) rest with
    | none => exact ⟨s, by simp, rfl, rfl, rfl⟩
    | some d =>
      have hd : d ∈ rest := List.mem_of_find?_eq_some hr
      have hm : d.isMounted = false := hinv d (by rw [hf]; simpa using hd)
      exact ⟨{ s with fetches := settle id (c :: rest) }, by simp [hm], rfl, rfl, rfl⟩

theorem cleanup_ids (fs : List FetchClosure) :
    (cleanup fs).map (fun c => c.id) = fs.map (fun c => c.id) := by
  cases fs <;> rfl

theorem cleanup_length (fs : List FetchClosure) : (cleanup fs).length = fs.length := by
  cases fs <;> rfl

theorem settle_ids (id : Nat) (fs : List FetchClosure) :
    (settle id fs).map (fun c => c.id) = fs.map (fun c => c.id) := by
  unfold settle
  rw [List.map_map]
  apply List.map_congr_left
  intro c _
  simp only [Function.comp]
  split <;> rfl

theorem settle_length (id : Nat) (fs : List FetchClosure) :
    (settle id fs).length = fs.length := by
  simp [settle]

theorem ids_cons (c : FetchClosure) (fs : List FetchClosure) (hc : c.id = fs.length)
    (h : fs.map (fun c => c.id) = (List.range fs.length).reverse) :
    (c :: fs).map (fun c => c.id) = (List.range (c :: fs).length).reverse := by
  simp [List.range_succ, h, hc]

theorem step_ids (s s' : MovieListState) (e : Event)
    (hs : s.fetches.map (fun c => c.id) = (List.range s.fetches.length).reverse)
    (h : step s e = .ok s') :
    s'.fetches.map (fun c => c.id) = (List.range s'.fetches.length).reverse := by
  have hclean : (cleanup s.fetches).map (fun c => c.id)
      = (List.range (cleanup s.fetches).length).reverse := by
    rw [cleanup_ids, cleanup_length]; exact hs
  refine step_cases
    (fun t => t.fetches.map (fun c => c.id) = (List.range t.fetches.length).reverse)
    s s' e hs ?_ ?_ ?_ h
  · intro a
    rcases handle_fetches s a with hf | hf
    · show (handle s a).fetches.map _ = _
      rw [hf]; exact hs
    · show (handle s a).fetches.map _ = _
      rw [hf]
      exact ids_cons _ _ (by simp [newClosure, update_fetches, cleanup_length]) hclean
  · intro id o t ht
    obtain ⟨_, _, hf | hf⟩ := respond_ok_shape s t id o ht
    · show t.fetches.map _ = _
      rw [hf]; exact hs
    · show t.fetches.map _ = _
      rw [hf, settle_ids, settle_length]; exact hs
  · show (newClosure { initial with fetches := cleanup s.fetches }
        :: cleanup (cleanup s.fetches)).map _ = _
    refine ids_cons _ _ (by simp [newClosure, cleanup_length]) ?_
    rw [cleanup_ids, cleanup_length]
    exact hclean

theorem reachable_ids (evs : List Event) (s : MovieListState) (h : run mount evs = .ok s) :
    s.fetches.map (fun c => c.id) = (List.range s.fetches.length).reverse :=
  run_induction
    (fun t => t.fetches.map (fun c => c.id) = (List.range t.fetches.length).reverse)
    (fun s e s' => step_ids s s' e) evs mount s rfl h

theorem earlier_ids_ne_latest (s : MovieListState)
    (h : s.fetches.map (fun c => c.id) = (List.range s.fetches.length).reverse) :
    ∀ c ∈ s.fetches.tail, c.id ≠ latestId s := by
  cases hf : s.fetches with
  | nil => intro c hc; simp at hc
  | cons c0 rest =>
    intro c hc
    rw [hf] at h
    simp only [List.map_cons, List.length_cons, List.range_succ, List.reverse_append,
      List.reverse_cons, List.reverse_nil, List.nil_append, List.singleton_append,
      List.cons.injEq] at h
    obtain ⟨h0, hrest⟩ := h
    have hmem : c.id ∈ rest.map (fun c => c.id) := List.mem_map_of_mem _ (by simpa using hc)
    rw [hrest] at hmem
    have hlt : c.id < rest.length := by simpa using hmem
    have hl : latestId s = c0.id := by simp [latestId, hf]
    rw [hl, h0]
    omega

/-- C14: in every state of `MovieList` reached from the mounted component by
clicks, handler calls, settling requests and remounts, a response (of any
kind) to a request other than the most recently issued one changes neither
the accumulated list nor the loading flag; and every request issued before
the most recent one is such a request. -/
theorem stale_response_ignored (evs : List Event) (s : MovieListState)
    (h : run mount evs = .ok s) :
    (∀ id o, id ≠ latestId s →
        ∃ s', respond s id o = .ok s' ∧ s'.movies = s.movies ∧ s'.loading = s.loading)
      ∧ (∀ c ∈ s.fetches.tail, c.id ≠ latestId s) := by
  refine ⟨?_, earlier_ids_ne_latest s (reachable_ids evs s h)⟩
  intro id o hid
  obtain ⟨s', h1, h2, h3, _⟩ := respond_stale s id o (reachable_tail_unmounted evs s h) hid
  exact ⟨s', h1, h2, h3⟩

/-- Witness of C14: the Discover tab is clicked while the first request
(id 0) is in flight; its response arrives afterwards and is dropped. -/
theorem stale_response_ignored_witness :
    ∃ s', respond sampleSuperseded 0 (.body (some [sampleMovie 9])) = .ok s'
      ∧ s'.movies = sampleSuperseded.movies ∧ s'.loading = sampleSuperseded.loading :=
  (stale_response_ignored [.click (.setView .discover)] sampleSuperseded rfl).1 0
    (.body (some [sampleMovie 9])) (by decide)

theorem step_page_pos (s s' : MovieListState) (e : Event) (hs : 1 ≤ s.page)
    (h : step s e = .ok s') : 1 ≤ s'.page := by
  refine step_cases (fun t => 1 ≤ t.page) s s' e hs ?_ ?_ ?_ h
  · intro a
    exact handle_page_pos s a
  · intro id o t ht
    show 1 ≤ t.page
    rw [(respond_ok_shape s t id o ht).1]
    exact hs
  · exact Nat.le_refl 1

/-- C18: in every state of `MovieList` reached from the mounted component by
any sequence of tab, time-window, sort, genre and Load More clicks (and of
settling requests and remounts), the page number is at least 1. -/
theorem page_pos_of_reachable (evs : List Event) (s : MovieListState)
    (h : run mount evs = .ok s) : 1 ≤ s.page :=
  run_induction (fun t => 1 ≤ t.page) (fun s e s' => step_page_pos s s' e) evs mount s
    (Nat.le_refl 1) h

/-- Witness of C18: page 1 arrives, then Load More is clicked. -/
theorem page_pos_of_reachable_witness : 1 ≤ sampleSecondPage.page :=
  page_pos_of_reachable [.settle 0 (.body (some [sampleMovie 1])), .click .loadMore]
    sampleSecondPage rfl

theorem handleGenreToggle_nodup (sel : List Int) (g : Int) (h : sel.Nodup) :
    (handleGenreToggle sel g).Nodup := by
  unfold handleGenreToggle
  split
  · exact h.filter _
  · rename_i hg
    have hg' : g ∉ sel := by simpa using hg
    rw [List.nodup_append]
    refine ⟨h, List.nodup_singleton g, ?_⟩
    intro a ha hb
    simp only [List.mem_singleton] at hb
    exact hg' (hb ▸ ha)

theorem handleGenreToggle_of_not_mem (sel : List Int) (g : Int) (h : g ∉ sel) :
    handleGenreToggle sel g = sel ++ [g] := by
  simp [handleGenreToggle, h]

theorem handleGenreToggle_of_mem (sel : List Int) (g : Int) (h : g ∈ sel) :
    handleGenreToggle sel g = sel.filter (fun id => id != g) := by
  simp [handleGenreToggle, h]

theorem foldl_handleGenreToggle_nodup (gs : List Int) :
    ∀ sel : List Int, sel.Nodup → (gs.foldl handleGenreToggle sel).Nodup := by
  induction gs with
  | nil => intro sel h; exact h
  | cons g gs ih =>
    intro sel h
    exact ih _ (handleGenreToggle_nodup sel g h)

theorem step_nodup (s s' : MovieListState) (e : Event) (hs : s.selectedGenres.Nodup)
    (h : step s e = .ok s') : s'.selectedGenres.Nodup := by
  refine step_cases (fun t => t.selectedGenres.Nodup) s s' e hs ?_ ?_ ?_ h
  · intro a
    have hu : (update s a).selectedGenres.Nodup := by
      cases a with
      | toggleGenre g => exact handleGenreToggle_nodup s.selectedGenres g hs
      | _ => exact hs
    show (handle s a).selectedGenres.Nodup
    unfold handle
    split
    · exact hu
    · exact hu
  · intro id o t ht
    show t.selectedGenres.Nodup
    rw [(respond_ok_shape s t id o ht).2.1]
    exact hs
  · exact List.nodup_nil

theorem reachable_nodup (evs : List Event) (s : MovieListState) (h : run mount evs = .ok s) :
    s.selectedGenres.Nodup :=
  run_induction (fun t => t.selectedGenres.Nodup) (fun s e s' => step_nodup s s' e) evs mount s
    List.nodup_nil h

/-- C19: in every state of `MovieList` reached from the mounted component
(empty selection), the selected-genre list has no id twice; toggling an id
that is absent appends it after the existing ids, and toggling an id that is
present removes just that id, the others keeping their relative order. Any
sequence of toggles alone, from the empty selection, gives a list without
repetition. -/
theorem selectedGenres_nodup (evs : List Event) (s : MovieListState)
    (h : run mount evs = .ok s) :
    s.selectedGenres.Nodup
      ∧ (∀ g, g ∉ s.selectedGenres →
          handleGenreToggle s.selectedGenres g = s.selectedGenres ++ [g])
      ∧ (∀ g, g ∈ s.selectedGenres →
          handleGenreToggle s.selectedGenres g = s.selectedGenres.erase g
            ∧ (handleGenreToggle s.selectedGenres g).Sublist s.selectedGenres)
      ∧ (∀ gs : List Int, (gs.foldl handleGenreToggle []).Nodup) := by
  have hn := reachable_nodup evs s h
  refine ⟨hn, fun g hg => handleGenreToggle_of_not_mem _ g hg, ?_,
    fun gs => foldl_handleGenreToggle_nodup gs [] List.nodup_nil⟩
  intro g hg
  rw [handleGenreToggle_of_mem _ g hg]
  constructor
  · rw [hn.erase_eq_filter]
  · exact List.filter_sublist _

/-- Witness of C19: genres 28 and 12 are selected in the Discover view, then
28 is toggled off. -/
theorem selectedGenres_nodup_witness :
    (handle (handle sampleDiscover (.toggleGenre 28)) (.toggleGenre 12)).selectedGenres.Nodup
      ∧ handleGenreToggle [28, 12] 28 = [12]
      ∧ handleGenreToggle [28, 12] 7 = [28, 12, 7] :=
  have hw := selectedGenres_nodup
    [.settle 0 (.body (some [sampleMovie 1])), .click (.setView .discover),
      .click (.toggleGenre 28), .click (.toggleGenre 12)]
    (handle (handle sampleDiscover (.toggleGenre 28)) (.toggleGenre 12)) rfl
  ⟨hw.1, (hw.2.2.1 28 (by decide)).1, hw.2.1 7 (by decide)⟩

theorem fetchUrl_discover_eq (API_KEY : String) (c : FetchClosure)
    (hv : c.view = .discover) :
    fetchUrl API_KEY c
      = renderUrl (BASE_URL ++ "/discover/movie") (discoverParams API_KEY c) := by
  unfold fetchUrl renderUrl discoverParams
  rw [hv]
  have e1 : "/discover/movie?api_key=" = "/discover/movie" ++ ("?" ++ ("api_key" ++ "=")) := by
    decide
  have e2 : "&sort_by=" = "&" ++ ("sort_by" ++ "=") := by decide
  have e3 : "&page=" = "&" ++ ("page" ++ "=") := by decide
  have e4 : "&with_genres=" = "&" ++ ("with_genres" ++ "=") := by decide
  by_cases hg : c.selectedGenres.length != 0
  · simp only [hg, if_true, List.map_cons, List.map_nil, List.cons_append, List.nil_append,
      String.intercalate, String.intercalate.go]
    rw [e1, e2, e3, e4]
    simp only [String.append_assoc]
  · simp only [hg, if_false, List.map_cons, List.map_nil, List.cons_append, List.nil_append,
      List.append_nil, String.intercalate, String.intercalate.go, Bool.false_eq_true]
    rw [e1, e2, e3]
    simp only [String.append_assoc, String.append_empty]

/-- C15: the URL of the discover request is the discover path followed by
the parameters `api_key`, `sort_by`, `page` and, only when the selection is
not empty, `with_genres`, whose value is the selected ids joined by commas in
selection order; with an empty selection there is no `with_genres` parameter
at all. -/
theorem fetchUrl_discover_params (API_KEY : String) (c : FetchClosure)
    (hv : c.view = .discover) :
    fetchUrl API_KEY c
        = renderUrl (BASE_URL ++ "/discover/movie") (discoverParams API_KEY c)
      ∧ (discoverParams API_KEY c).lookup "sort_by" = some c.sortBy.text
      ∧ (discoverParams API_KEY c).lookup "page" = some (toString c.page)
      ∧ (c.selectedGenres = [] →
          (discoverParams API_KEY c).map Prod.fst = ["api_key", "sort_by", "page"])
      ∧ (c.selectedGenres ≠ [] →
          (discoverParams API_KEY c).map Prod.fst = ["api_key", "sort_by", "page", "with_genres"]
            ∧ (discoverParams API_KEY c).lookup "with_genres"
                = some (",".intercalate (c.selectedGenres.map toString))) := by
  refine ⟨fetchUrl_discover_eq API_KEY c hv, ?_, ?_, ?_, ?_⟩
  · simp [discoverParams, List.lookup]
  · simp [discoverParams, List.lookup]
  · intro hg
    simp [discoverParams, hg]
  · intro hg
    have hl : c.selectedGenres.length ≠ 0 := by
      intro h0
      exact hg (List.length_eq_zero.mp h0)
    simp [discoverParams, hl, List.lookup, joinIds]

/-- Witness of C15: sort by rating, page 2, genres 28 and 12. -/
theorem fetchUrl_discover_params_witness :
    fetchUrl "KEY" sampleDiscoverClosure
        = renderUrl (BASE_URL ++ "/discover/movie") (discoverParams "KEY" sampleDiscoverClosure)
      ∧ (discoverParams "KEY" sampleDiscoverClosure).lookup "with_genres"
          = some (",".intercalate (sampleDiscoverClosure.selectedGenres.map toString)) :=
  have hw := fetchUrl_discover_params "KEY" sampleDiscoverClosure rfl
  ⟨hw.1, (hw.2.2.2.2 (by decide)).2⟩

/-- The two discover URLs written out: with genres 28 and 12, and with no
genre selected. -/
theorem fetchUrl_discover_samples :
    fetchUrl "KEY" sampleDiscoverClosure
        = "https://api.themoviedb.org/3/discover/movie?api_key=KEY&sort_by=vote_average.desc&page=2&with_genres=28,12"
      ∧ fetchUrl "KEY" { sampleDiscoverClosure with selectedGenres := [] }
        = "https://api.themoviedb.org/3/discover/movie?api_key=KEY&sort_by=vote_average.desc&page=2" := by
  decide

end MovieList

/-! ## Theorems: view selection -/

namespace App

theorem currentView_onMovieClick_of_ne_zero (s : AppState) (n : Int) (h : n ≠ 0) :
    currentView (onMovieClick s n) = .viewingDetail n := by
  simp [currentView, onMovieClick, h]

/-- C16, as stated, fails for the back action: a movie is on screen while
`isSearching` is set (it was selected from the search results), and going
back yields the view Searching, not Listing. -/
theorem onBack_from_search_is_searching :
    currentView sampleDetailFromSearch = .viewingDetail 5
      ∧ currentView (onBack sampleDetailFromSearch) = .searching
      ∧ currentView (onBack sampleDetailFromSearch) ≠ .listing := by
  refine ⟨rfl, rfl, ?_⟩
  decide

/-- C16, amended: from every state, in particular one showing a movie, the
logo click yields the view Listing and clears the search state (the
`isSearching` flag and the query string, lines 491-492); the back action
yields Listing when `isSearching` is false and Searching when it is true. -/
theorem leave_detail (s : AppState) :
    currentView (logoClick s) = .listing
      ∧ (logoClick s).isSearching = false
      ∧ (logoClick s).searchQuery = ""
      ∧ currentView (onBack s) = (if s.isSearching then .searching else .listing) := by
  refine ⟨rfl, rfl, rfl, ?_⟩
  simp only [currentView, onBack]

/-- Witness of C16 amended: a state showing movie 5 while `isSearching` is
set. -/
theorem leave_detail_witness :
    currentView sampleDetailFromSearch = .viewingDetail 5
      ∧ currentView (logoClick sampleDetailFromSearch) = .listing
      ∧ (logoClick sampleDetailFromSearch).isSearching = false
      ∧ (logoClick sampleDetailFromSearch).searchQuery = ""
      ∧ currentView (onBack sampleDetailFromSearch)
        = (if sampleDetailFromSearch.isSearching then .searching else .listing) :=
  ⟨rfl, leave_detail sampleDetailFromSearch⟩

/-- C17 fails on the code for id 0: selecting a movie whose id is 0 stores 0,
which the conditional of line 518 treats like `null`, so the list (or the
search results) stays on screen. -/
theorem onMovieClick_zero_stays :
    (onMovieClick initial 0).selectedMovieId = some 0
      ∧ currentView (onMovieClick initial 0) = .listing
      ∧ currentView (onMovieClick sampleSearching 0) = .searching := by
  refine ⟨rfl, rfl, rfl⟩

end App

end MovieListApp
